import Mathlib

/-!
Shallow embedding of `src/cron_builder.py` (a fluent builder for cron
expressions).

Modelling conventions:

* Python integers become `Int`.  For `a % b` with `b > 0`, Python's floor
  modulus agrees with Lean's `Int.emod` (the `%` of `Int`), so `%` is a
  faithful translation everywhere the divisor is positive (intervals are
  validated positive).
* Python objects are mutable; we make the state passing explicit.  Every
  method that in Python may either mutate the receiver in place (mutable
  mode) or build fresh objects (immutable mode) is translated as a function
  returning a pair `(receiverAfter, result)`: `receiverAfter` is the state
  of the receiver object after the call (reflecting any in-place mutation),
  `result` is the value the method returns (in mutable mode the two
  coincide; in immutable mode `receiverAfter` is the untouched receiver).
  Fallible methods return `receiverAfter × Except CronError result`; a
  `raise` is translated as `.error` together with the receiver state at the
  moment of the raise.
* `ValueError` has no subclasses in the source; the spec classifies the
  raises into a range error (out-of-bounds value, bad range, non-positive
  interval) and a state error (conjunction before its prerequisite field).
  `CronError` keeps that distinction, carrying the field name / offending
  value resp. the message.
* `datetime` is consumed only through `dt.day` and `dt.weekday()`; the
  `Timestamp` structure carries exactly those two observations, with
  `weekday` in Python's convention (Monday = 0 … Sunday = 6).
* Warnings (`warnings.warn`) are a diagnostic side channel with no effect
  on state or results, and are not modelled.
-/

/-- Errors raised by the builder: `rangeError name got` for an
out-of-bounds / invalid numeric argument on field `name`, `stateError msg`
for a conjunction setter called before its prerequisite field is set. -/
inductive CronError where
  | rangeError (name : String) (got : Int)
  | stateError (msg : String)
  deriving DecidableEq, Repr

/-- `CronExpr` from the source: a tagged union over the five constraint
kinds.  The Python class stores a `kind` string plus a tuple of values;
the inductive keeps exactly the payloads each kind reads
(`value` reads `values[0]`, `range` reads `values[0]`, `values[1]`,
`step` reads `(start, step) = values`). -/
inductive CronExpr where
  | any : CronExpr
  | value (v : Int) : CronExpr
  | list (values : List Int) : CronExpr
  | range (lo hi : Int) : CronExpr
  | step (start interval : Int) : CronExpr
  deriving DecidableEq, Repr

namespace CronExpr

/-- The `kind` discriminator string of the Python dataclass. -/
def kind : CronExpr → String
  | .any => "any"
  | .value _ => "value"
  | .list _ => "list"
  | .range _ _ => "range"
  | .step _ _ => "step"

/-- `CronExpr.matches`: check if a value matches this expression.
`step` with `start = -1` (the wildcard sentinel) matches multiples of the
step; otherwise values `≥ start` congruent to `start` modulo the step. -/
def «matches» : CronExpr → Int → Bool
  | .any, _ => true
  | .value v, actual => actual == v
  | .list values, actual => values.contains actual
  | .range lo hi, actual => decide (lo ≤ actual) && decide (actual ≤ hi)
  | .step start interval, actual =>
      if start == -1 then actual % interval == 0
      else decide (actual ≥ start) && (actual - start) % interval == 0

/-- `CronExpr.to_cron_str`: canonical cron-syntax rendering. -/
def to_cron_str : CronExpr → String
  | .any => "*"
  | .value v => toString v
  | .list values => String.intercalate "," (values.map toString)
  | .range lo hi => toString lo ++ "-" ++ toString hi
  | .step start interval =>
      if start == -1 then "*/" ++ toString interval
      else toString start ++ "/" ++ toString interval

end CronExpr

/-- `CronField`: a named bounded slot holding one expression, plus the
mutability-mode flag it was created with. -/
structure CronField where
  min_val : Int
  max_val : Int
  name : String
  immutable : Bool
  expr : CronExpr
  deriving DecidableEq, Repr

namespace CronField

/-- `CronField.__init__`: bounds, name and mode are fixed; the expression
starts as the wildcard. -/
def new (min_val max_val : Int) (name : String) (immutable : Bool) : CronField :=
  { min_val := min_val, max_val := max_val, name := name,
    immutable := immutable, expr := CronExpr.any }

/-- `CronField._validate_value`: raise unless `min_val <= val <= max_val`. -/
def validate_value (f : CronField) (val : Int) : Except CronError Unit :=
  if ¬ (f.min_val ≤ val ∧ val ≤ f.max_val) then
    Except.error (CronError.rangeError f.name val)
  else Except.ok ()

/-- `CronField._apply`: in immutable mode build a fresh field carrying the
new expression and leave the receiver untouched; in mutable mode overwrite
the receiver's expression in place and return it.  The pair is
`(receiverAfter, returned field)`. -/
def apply_expr (f : CronField) (expr : CronExpr) : CronField × CronField :=
  let new_field := { f with expr := expr }
  if f.immutable then (f, new_field) else (new_field, new_field)

/-- `CronField.set_value`: validate, then apply a `value` expression. -/
def set_value (f : CronField) (val : Int) : CronField × Except CronError CronField :=
  match f.validate_value val with
  | .error e => (f, .error e)
  | .ok _ =>
      let p := f.apply_expr (CronExpr.value val)
      (p.1, .ok p.2)

/-- `CronField.set_values`: validate every value (in order, raising at the
first bad one, before any mutation), then apply a `list` expression. -/
def set_values (f : CronField) (values : List Int) : CronField × Except CronError CronField :=
  match values.findSome? (fun v =>
      match f.validate_value v with
      | .error e => some e
      | .ok _ => none) with
  | some e => (f, .error e)
  | none =>
      let p := f.apply_expr (CronExpr.list values)
      (p.1, .ok p.2)

/-- `CronField.set_range`: validate both bounds, reject `start > stop`,
then apply a `range` expression. -/
def set_range (f : CronField) (start stop : Int) : CronField × Except CronError CronField :=
  match f.validate_value start with
  | .error e => (f, .error e)
  | .ok _ =>
      match f.validate_value stop with
      | .error e => (f, .error e)
      | .ok _ =>
          if start > stop then (f, .error (CronError.rangeError f.name start))
          else
            let p := f.apply_expr (CronExpr.range start stop)
            (p.1, .ok p.2)

/-- `CronField.set_interval`: reject non-positive intervals; validate
`start` unless it is the wildcard sentinel `-1`; then apply a `step`
expression. -/
def set_interval (f : CronField) (interval start : Int) : CronField × Except CronError CronField :=
  if interval ≤ 0 then (f, .error (CronError.rangeError f.name interval))
  else
    if start ≠ -1 then
      match f.validate_value start with
      | .error e => (f, .error e)
      | .ok _ =>
          let p := f.apply_expr (CronExpr.step start interval)
          (p.1, .ok p.2)
    else
      let p := f.apply_expr (CronExpr.step start interval)
      (p.1, .ok p.2)

/-- `CronField.set_any`: reset to the wildcard; never fails. -/
def set_any (f : CronField) : CronField × CronField :=
  f.apply_expr CronExpr.any

/-- `CronField.matches`: delegate to the current expression. -/
def «matches» (f : CronField) (actual : Int) : Bool :=
  f.expr.«matches» actual

/-- `CronField.__str__`. -/
def render (f : CronField) : String :=
  f.expr.to_cron_str

end CronField

/-- The conjunction anchor kind recorded by `and_dow` / `and_dom`
(the source stores the strings `"dow"` / `"dom"`; only these two ever
occur). -/
inductive ConjKind where
  | dow : ConjKind
  | dom : ConjKind
  deriving DecidableEq, Repr

/-- `CronBuilder`: five fields plus the optional conjunction marker. -/
structure CronBuilder where
  immutable : Bool
  minute : CronField
  hour : CronField
  day_of_month : CronField
  month : CronField
  day_of_week : CronField
  conjunction : Option (ConjKind × Int)
  deriving DecidableEq, Repr

namespace CronBuilder

/-- `CronBuilder.__init__`: the five fields with their fixed bounds, all
wildcard, no conjunction. -/
def new (immutable : Bool) : CronBuilder :=
  { immutable := immutable
    minute := CronField.new 0 59 "minute" immutable
    hour := CronField.new 0 23 "hour" immutable
    day_of_month := CronField.new 1 31 "day_of_month" immutable
    month := CronField.new 1 12 "month" immutable
    day_of_week := CronField.new 0 6 "day_of_week" immutable
    conjunction := none }

/-- `CronBuilder._copy_with`: in mutable mode, assign the updated
components onto the receiver and return it; in immutable mode, build a
new builder taking the updated components and sharing the rest with the
receiver, which stays untouched.  `upd` performs exactly the component
updates of the keyword arguments.  The pair is
`(receiverAfter, returned builder)`. -/
def copy_with (b : CronBuilder) (upd : CronBuilder → CronBuilder) : CronBuilder × CronBuilder :=
  if b.immutable then (b, upd b) else (upd b, upd b)

/-- Common shape of the per-field setters
(`self._copy_with(field=self.field.set_xxx(...))`): run the field
operation (whose in-place effect, if any, lands on the receiver's field),
then `_copy_with` the returned field.  `get`/`put` are the projection and
update for the one field the setter touches. -/
def with_field (b : CronBuilder) (get : CronBuilder → CronField)
    (put : CronBuilder → CronField → CronBuilder)
    (op : CronField → CronField × Except CronError CronField) :
    CronBuilder × Except CronError CronBuilder :=
  let p := op (get b)
  let b1 := put b p.1
  match p.2 with
  | .error e => (b1, .error e)
  | .ok fld =>
      let q := b1.copy_with (fun c => put c fld)
      (q.1, .ok q.2)

/-- Sequential chaining `self.first(...).second(...)` of two builder
calls.  In mutable mode every intermediate builder aliases the receiver,
so the receiver's final state is the state after the second call; in
immutable mode the second call runs on a fresh builder and the receiver's
state is whatever the first call left it (unchanged). -/
def chain (b : CronBuilder)
    (first second : CronBuilder → CronBuilder × Except CronError CronBuilder) :
    CronBuilder × Except CronError CronBuilder :=
  let p := first b
  match p.2 with
  | .error e => (p.1, .error e)
  | .ok ret1 =>
      let q := second ret1
      (if b.immutable then p.1 else q.1, q.2)

/-- `CronBuilder.at_minute`. -/
def at_minute (b : CronBuilder) (minute : Int) : CronBuilder × Except CronError CronBuilder :=
  b.with_field (·.minute) (fun c f => { c with minute := f }) (·.set_value minute)

/-- `CronBuilder.at_minutes`. -/
def at_minutes (b : CronBuilder) (minutes : List Int) : CronBuilder × Except CronError CronBuilder :=
  b.with_field (·.minute) (fun c f => { c with minute := f }) (·.set_values minutes)

/-- `CronBuilder.every_minutes` (interval with wildcard start). -/
def every_minutes (b : CronBuilder) (interval : Int) : CronBuilder × Except CronError CronBuilder :=
  b.with_field (·.minute) (fun c f => { c with minute := f }) (·.set_interval interval (-1))

/-- `CronBuilder.minute_range`. -/
def minute_range (b : CronBuilder) (start stop : Int) : CronBuilder × Except CronError CronBuilder :=
  b.with_field (·.minute) (fun c f => { c with minute := f }) (·.set_range start stop)

/-- `CronBuilder.at_hour`. -/
def at_hour (b : CronBuilder) (hour : Int) : CronBuilder × Except CronError CronBuilder :=
  b.with_field (·.hour) (fun c f => { c with hour := f }) (·.set_value hour)

/-- `CronBuilder.at_hours`. -/
def at_hours (b : CronBuilder) (hours : List Int) : CronBuilder × Except CronError CronBuilder :=
  b.with_field (·.hour) (fun c f => { c with hour := f }) (·.set_values hours)

/-- `CronBuilder.every_hours`. -/
def every_hours (b : CronBuilder) (interval : Int) : CronBuilder × Except CronError CronBuilder :=
  b.with_field (·.hour) (fun c f => { c with hour := f }) (·.set_interval interval (-1))

/-- `CronBuilder.hour_range`. -/
def hour_range (b : CronBuilder) (start stop : Int) : CronBuilder × Except CronError CronBuilder :=
  b.with_field (·.hour) (fun c f => { c with hour := f }) (·.set_range start stop)

/-- `CronBuilder.at`: `self.at_hour(hour).at_minute(minute)`. -/
def «at» (b : CronBuilder) (hour minute : Int) : CronBuilder × Except CronError CronBuilder :=
  b.chain (·.at_hour hour) (·.at_minute minute)

/-- `CronBuilder.on_dom` (alias `on_day_of_month`). -/
def on_dom (b : CronBuilder) (day : Int) : CronBuilder × Except CronError CronBuilder :=
  b.with_field (·.day_of_month) (fun c f => { c with day_of_month := f }) (·.set_value day)

/-- `CronBuilder.on_doms` (alias `on_days_of_month`). -/
def on_doms (b : CronBuilder) (days : List Int) : CronBuilder × Except CronError CronBuilder :=
  b.with_field (·.day_of_month) (fun c f => { c with day_of_month := f }) (·.set_values days)

/-- `CronBuilder.dom_range` (alias `day_of_month_range`). -/
def dom_range (b : CronBuilder) (start stop : Int) : CronBuilder × Except CronError CronBuilder :=
  b.with_field (·.day_of_month) (fun c f => { c with day_of_month := f }) (·.set_range start stop)

/-- `CronBuilder.in_month` (the `Month` enum member is resolved to its
integer value before this point). -/
def in_month (b : CronBuilder) (month : Int) : CronBuilder × Except CronError CronBuilder :=
  b.with_field (·.month) (fun c f => { c with month := f }) (·.set_value month)

/-- `CronBuilder.in_months`. -/
def in_months (b : CronBuilder) (months : List Int) : CronBuilder × Except CronError CronBuilder :=
  b.with_field (·.month) (fun c f => { c with month := f }) (·.set_values months)

/-- `CronBuilder.month_range`. -/
def month_range (b : CronBuilder) (start stop : Int) : CronBuilder × Except CronError CronBuilder :=
  b.with_field (·.month) (fun c f => { c with month := f }) (·.set_range start stop)

/-- `CronBuilder.on_dow` (aliases `on_day`; the `Weekday` enum member is
resolved to its integer value before this point). -/
def on_dow (b : CronBuilder) (day : Int) : CronBuilder × Except CronError CronBuilder :=
  b.with_field (·.day_of_week) (fun c f => { c with day_of_week := f }) (·.set_value day)

/-- `CronBuilder.on_dows` (alias `on_days`). -/
def on_dows (b : CronBuilder) (days : List Int) : CronBuilder × Except CronError CronBuilder :=
  b.with_field (·.day_of_week) (fun c f => { c with day_of_week := f }) (·.set_values days)

/-- `CronBuilder.on_weekdays`: day-of-week range 1–5. -/
def on_weekdays (b : CronBuilder) : CronBuilder × Except CronError CronBuilder :=
  b.with_field (·.day_of_week) (fun c f => { c with day_of_week := f }) (·.set_range 1 5)

/-- `CronBuilder.on_weekends`: day-of-week list (0, 6). -/
def on_weekends (b : CronBuilder) : CronBuilder × Except CronError CronBuilder :=
  b.with_field (·.day_of_week) (fun c f => { c with day_of_week := f }) (·.set_values [0, 6])

/-- `CronBuilder.dow_range` (alias `day_of_week_range`). -/
def dow_range (b : CronBuilder) (start stop : Int) : CronBuilder × Except CronError CronBuilder :=
  b.with_field (·.day_of_week) (fun c f => { c with day_of_week := f }) (·.set_range start stop)

/-- `CronBuilder.hourly`: just `at_minute`. -/
def hourly (b : CronBuilder) (minute : Int) : CronBuilder × Except CronError CronBuilder :=
  b.at_minute minute

/-- `CronBuilder.daily`: just `at`. -/
def daily (b : CronBuilder) (hour minute : Int) : CronBuilder × Except CronError CronBuilder :=
  b.«at» hour minute

/-- `CronBuilder.weekly`: `self.at(hour, minute).on_dow(day)`. -/
def weekly (b : CronBuilder) (day hour minute : Int) : CronBuilder × Except CronError CronBuilder :=
  b.chain (·.«at» hour minute) (·.on_dow day)

/-- `CronBuilder.monthly`: `self.at(hour, minute).on_dom(day)`. -/
def monthly (b : CronBuilder) (day hour minute : Int) : CronBuilder × Except CronError CronBuilder :=
  b.chain (·.«at» hour minute) (·.on_dom day)

/-- `CronBuilder.yearly`: `self.at(hour, minute).on_dom(day).in_month(month)`. -/
def yearly (b : CronBuilder) (month day hour minute : Int) : CronBuilder × Except CronError CronBuilder :=
  b.chain (fun c => c.chain (·.«at» hour minute) (·.on_dom day)) (·.in_month month)

/-- `CronBuilder.and_dow` (alias `and_day`): raise unless day-of-month is
non-wildcard, otherwise record the conjunction `("dow", day)`. -/
def and_dow (b : CronBuilder) (day : Int) : CronBuilder × Except CronError CronBuilder :=
  if b.day_of_month.expr.kind == "any" then
    (b, .error (CronError.stateError "Must set day_of_month before calling and_dow()"))
  else
    let q := b.copy_with (fun c => { c with conjunction := some (ConjKind.dow, day) })
    (q.1, .ok q.2)

/-- `CronBuilder.and_dom` (alias `and_day_of_month`): raise unless
day-of-week is non-wildcard, otherwise record the conjunction
`("dom", day)`. -/
def and_dom (b : CronBuilder) (day : Int) : CronBuilder × Except CronError CronBuilder :=
  if b.day_of_week.expr.kind == "any" then
    (b, .error (CronError.stateError "Must set day_of_week before calling and_dom()"))
  else
    let q := b.copy_with (fun c => { c with conjunction := some (ConjKind.dom, day) })
    (q.1, .ok q.2)

end CronBuilder

/-- The two observations `should_run` takes from a `datetime`:
`day` is the day-of-month, `weekday` is Python's `datetime.weekday()`
(Monday = 0 … Sunday = 6). -/
structure Timestamp where
  day : Int
  weekday : Int
  deriving DecidableEq, Repr

/-- A timestamp a real `datetime` can produce: day-of-month in `[1,31]`,
weekday in `[0,6]`. -/
def Timestamp.Valid (dt : Timestamp) : Prop :=
  1 ≤ dt.day ∧ dt.day ≤ 31 ∧ 0 ≤ dt.weekday ∧ dt.weekday ≤ 6

instance (dt : Timestamp) : Decidable dt.Valid := by
  unfold Timestamp.Valid; infer_instance

namespace CronBuilder

/-- `CronBuilder.should_run`: with no conjunction, `true`; otherwise
convert the weekday to Sunday = 0 (`(dt.weekday() + 1) % 7`) and
adjudicate the recorded conjunction. -/
def should_run (b : CronBuilder) (dt : Timestamp) : Bool :=
  match b.conjunction with
  | none => true
  | some (conj_type, conj_value) =>
      let dt_weekday := (dt.weekday + 1) % 7
      match conj_type with
      | ConjKind.dow =>
          if ¬ b.day_of_month.«matches» dt.day then false
          else dt_weekday == conj_value
      | ConjKind.dom =>
          if ¬ b.day_of_week.«matches» dt_weekday then false
          else dt.day == conj_value

/-- `CronBuilder.__str__`: the five fields, space-separated, in the fixed
order minute, hour, day-of-month, month, day-of-week. -/
def render (b : CronBuilder) : String :=
  b.minute.render ++ " " ++ b.hour.render ++ " " ++ b.day_of_month.render
    ++ " " ++ b.month.render ++ " " ++ b.day_of_week.render

end CronBuilder

/-- One call of the public fluent API, with its integer arguments
(symbolic `Weekday`/`Month` constants are already resolved to their
integer values, as `isinstance` resolution in the source does before
anything else). -/
inductive Op where
  | at_minute (v : Int)
  | at_minutes (vs : List Int)
  | every_minutes (i : Int)
  | minute_range (lo hi : Int)
  | at_hour (v : Int)
  | at_hours (vs : List Int)
  | every_hours (i : Int)
  | hour_range (lo hi : Int)
  | at (h m : Int)
  | on_dom (v : Int)
  | on_doms (vs : List Int)
  | dom_range (lo hi : Int)
  | in_month (v : Int)
  | in_months (vs : List Int)
  | month_range (lo hi : Int)
  | on_dow (v : Int)
  | on_dows (vs : List Int)
  | on_weekdays
  | on_weekends
  | dow_range (lo hi : Int)
  | hourly (m : Int)
  | daily (h m : Int)
  | weekly (d h m : Int)
  | monthly (d h m : Int)
  | yearly (mo d h m : Int)
  | and_dow (d : Int)
  | and_dom (d : Int)
  deriving DecidableEq, Repr

namespace Op

/-- Dispatch one API call to its method. -/
def run (b : CronBuilder) : Op → CronBuilder × Except CronError CronBuilder
  | .at_minute v => b.at_minute v
  | .at_minutes vs => b.at_minutes vs
  | .every_minutes i => b.every_minutes i
  | .minute_range lo hi => b.minute_range lo hi
  | .at_hour v => b.at_hour v
  | .at_hours vs => b.at_hours vs
  | .every_hours i => b.every_hours i
  | .hour_range lo hi => b.hour_range lo hi
  | .at h m => b.«at» h m
  | .on_dom v => b.on_dom v
  | .on_doms vs => b.on_doms vs
  | .dom_range lo hi => b.dom_range lo hi
  | .in_month v => b.in_month v
  | .in_months vs => b.in_months vs
  | .month_range lo hi => b.month_range lo hi
  | .on_dow v => b.on_dow v
  | .on_dows vs => b.on_dows vs
  | .on_weekdays => b.on_weekdays
  | .on_weekends => b.on_weekends
  | .dow_range lo hi => b.dow_range lo hi
  | .hourly m => b.hourly m
  | .daily h m => b.daily h m
  | .weekly d h m => b.weekly d h m
  | .monthly d h m => b.monthly d h m
  | .yearly mo d h m => b.yearly mo d h m
  | .and_dow d => b.and_dow d
  | .and_dom d => b.and_dom d

/-- The multi-step convenience combinators: the calls that are a sequence
of two or more primitive setter calls rather than a single one. -/
def multi : Op → Bool
  | .at _ _ => true
  | .daily _ _ => true
  | .weekly _ _ _ => true
  | .monthly _ _ _ => true
  | .yearly _ _ _ _ => true
  | _ => false

end Op

/-- The mutability-mode flag of every field agrees with the builder's
flag, as holds for every builder the constructor or the API can produce. -/
def CronBuilder.flagsConsistent (b : CronBuilder) : Prop :=
  b.minute.immutable = b.immutable ∧ b.hour.immutable = b.immutable ∧
    b.day_of_month.immutable = b.immutable ∧ b.month.immutable = b.immutable ∧
    b.day_of_week.immutable = b.immutable

instance (b : CronBuilder) : Decidable b.flagsConsistent := by
  unfold CronBuilder.flagsConsistent; infer_instance

/-- Modelled from the spec (§4.3 evaluation steps 1–4): the reference
definition of `shouldRun` the specification states.  No conjunction →
`true`; otherwise the weekday converted to Sunday = 0; `dow` anchor →
day-of-month expression matches the day AND weekday equals the anchor;
`dom` anchor → day-of-week expression matches the weekday AND the day
equals the anchor. -/
def should_run_spec (b : CronBuilder) (dt : Timestamp) : Bool :=
  match b.conjunction with
  | none => true
  | some (anchor, anchorValue) =>
      let w := (dt.weekday + 1) % 7
      match anchor with
      | ConjKind.dow =>
          b.day_of_month.expr.«matches» dt.day && (w == anchorValue)
      | ConjKind.dom =>
          b.day_of_week.expr.«matches» w && (dt.day == anchorValue)

namespace CronField

theorem apply_expr_snd (f : CronField) (e : CronExpr) :
    (f.apply_expr e).2 = { f with expr := e } := by
  unfold apply_expr; split <;> rfl

theorem apply_expr_fst_imm (f : CronField) (e : CronExpr) (h : f.immutable = true) :
    (f.apply_expr e).1 = f := by
  unfold apply_expr; simp [h]

theorem set_value_fst_of_error (f : CronField) (v : Int) (e : CronError)
    (h : (f.set_value v).2 = .error e) : (f.set_value v).1 = f := by
  unfold set_value at h ⊢
  cases hv : f.validate_value v <;> simp [hv] at h ⊢

theorem set_value_fst_imm (f : CronField) (v : Int) (h : f.immutable = true) :
    (f.set_value v).1 = f := by
  unfold set_value
  cases hv : f.validate_value v <;> simp [hv, apply_expr_fst_imm, h]

theorem set_value_ok (f : CronField) (v : Int) (g : CronField)
    (h : (f.set_value v).2 = .ok g) : g = { f with expr := CronExpr.value v } := by
  unfold set_value at h
  cases hv : f.validate_value v <;> simp [hv, apply_expr_snd] at h
  exact h.symm

theorem set_values_fst_of_error (f : CronField) (vs : List Int) (e : CronError)
    (h : (f.set_values vs).2 = .error e) : (f.set_values vs).1 = f := by
  unfold set_values at h ⊢
  cases hv : vs.findSome? (fun v =>
      match f.validate_value v with
      | .error e => some e
      | .ok _ => none) <;> simp [hv] at h ⊢

theorem set_values_fst_imm (f : CronField) (vs : List Int) (h : f.immutable = true) :
    (f.set_values vs).1 = f := by
  unfold set_values
  cases hv : vs.findSome? (fun v =>
      match f.validate_value v with
      | .error e => some e
      | .ok _ => none) <;> simp [hv, apply_expr_fst_imm, h]

theorem set_values_ok (f : CronField) (vs : List Int) (g : CronField)
    (h : (f.set_values vs).2 = .ok g) : g = { f with expr := CronExpr.list vs } := by
  unfold set_values at h
  cases hv : vs.findSome? (fun v =>
      match f.validate_value v with
      | .error e => some e
      | .ok _ => none) <;> simp [hv, apply_expr_snd] at h
  exact h.symm

theorem set_range_fst_of_error (f : CronField) (a z : Int) (e : CronError)
    (h : (f.set_range a z).2 = .error e) : (f.set_range a z).1 = f := by
  unfold set_range at h ⊢
  cases h1 : f.validate_value a <;> cases h2 : f.validate_value z <;>
    by_cases h3 : a > z <;> simp [h1, h2, h3] at h ⊢

theorem set_range_fst_imm (f : CronField) (a z : Int) (h : f.immutable = true) :
    (f.set_range a z).1 = f := by
  unfold set_range
  cases h1 : f.validate_value a <;> cases h2 : f.validate_value z <;>
    by_cases h3 : a > z <;> simp [h1, h2, h3, apply_expr_fst_imm, h]

theorem set_range_ok (f : CronField) (a z : Int) (g : CronField)
    (h : (f.set_range a z).2 = .ok g) : g = { f with expr := CronExpr.range a z } := by
  unfold set_range at h
  cases h1 : f.validate_value a <;> cases h2 : f.validate_value z <;>
    by_cases h3 : a > z <;> simp [h1, h2, h3, apply_expr_snd] at h
  exact h.symm

theorem set_interval_fst_of_error (f : CronField) (i s : Int) (e : CronError)
    (h : (f.set_interval i s).2 = .error e) : (f.set_interval i s).1 = f := by
  unfold set_interval at h ⊢
  by_cases h1 : i ≤ 0
  · simp [h1]
  · simp only [if_neg h1] at h ⊢
    by_cases h2 : s ≠ -1
    · simp only [if_pos h2] at h ⊢
      cases hv : f.validate_value s <;> simp [hv] at h ⊢
    · simp only [if_neg h2] at h ⊢
      simp at h

theorem set_interval_fst_imm (f : CronField) (i s : Int) (h : f.immutable = true) :
    (f.set_interval i s).1 = f := by
  unfold set_interval
  by_cases h1 : i ≤ 0
  · simp [h1]
  · simp only [if_neg h1]
    by_cases h2 : s ≠ -1
    · simp only [if_pos h2]
      cases hv : f.validate_value s <;> simp [hv, apply_expr_fst_imm, h]
    · simp only [if_neg h2]
      simp [apply_expr_fst_imm, h]

theorem set_interval_ok (f : CronField) (i s : Int) (g : CronField)
    (h : (f.set_interval i s).2 = .ok g) : g = { f with expr := CronExpr.step s i } := by
  unfold set_interval at h
  by_cases h1 : i ≤ 0
  · simp [h1] at h
  · simp only [if_neg h1] at h
    by_cases h2 : s ≠ -1
    · simp only [if_pos h2] at h
      cases hv : f.validate_value s <;> simp [hv, apply_expr_snd] at h
      exact h.symm
    · simp only [if_neg h2] at h
      simp [apply_expr_snd] at h
      exact h.symm

end CronField

namespace CronBuilder

theorem copy_with_fst_imm (b : CronBuilder) (upd : CronBuilder → CronBuilder)
    (hb : b.immutable = true) : (b.copy_with upd).1 = b := by
  simp [copy_with, hb]

theorem copy_with_snd (b : CronBuilder) (upd : CronBuilder → CronBuilder) :
    (b.copy_with upd).2 = upd b := by
  unfold copy_with; split <;> rfl

theorem with_field_fst_of_error (b : CronBuilder) (get : CronBuilder → CronField)
    (put : CronBuilder → CronField → CronBuilder)
    (op : CronField → CronField × Except CronError CronField)
    (hop : ∀ e, (op (get b)).2 = .error e → (op (get b)).1 = get b)
    (hput : put b (get b) = b) (e : CronError)
    (h : (b.with_field get put op).2 = .error e) :
    (b.with_field get put op).1 = b := by
  unfold with_field at h ⊢
  cases hv : (op (get b)).2 with
  | error e2 => simp only [hv]; rw [hop e2 hv, hput]
  | ok fld => simp [hv] at h

theorem with_field_imm (b : CronBuilder) (get : CronBuilder → CronField)
    (put : CronBuilder → CronField → CronBuilder)
    (op : CronField → CronField × Except CronError CronField)
    (hb : b.immutable = true)
    (hop1 : (op (get b)).1 = get b)
    (hput : put b (get b) = b)
    (hok : ∀ g, (op (get b)).2 = .ok g → g.immutable = true)
    (hpres : ∀ g, g.immutable = true → (put b g).immutable = true ∧ (put b g).flagsConsistent) :
    (b.with_field get put op).1 = b ∧
      ∀ b2, (b.with_field get put op).2 = .ok b2 → b2.immutable = true ∧ b2.flagsConsistent := by
  unfold with_field
  have hb1 : put b (op (get b)).1 = b := by rw [hop1, hput]
  cases hv : (op (get b)).2 with
  | error e => simp [hv, hb1]
  | ok fld =>
      simp only [hv, hb1]
      constructor
      · exact copy_with_fst_imm b _ hb
      · intro b2 hb2
        simp only [copy_with_snd, Except.ok.injEq] at hb2
        subst hb2
        exact hpres fld (hok fld hv)

theorem chain_imm (b : CronBuilder)
    (first second : CronBuilder → CronBuilder × Except CronError CronBuilder)
    (hb : b.immutable = true)
    (h1 : (first b).1 = b ∧ ∀ x, (first b).2 = .ok x → x.immutable = true ∧ x.flagsConsistent)
    (h2 : ∀ c, c.immutable = true → c.flagsConsistent →
        (second c).1 = c ∧ ∀ x, (second c).2 = .ok x → x.immutable = true ∧ x.flagsConsistent) :
    (b.chain first second).1 = b ∧
      ∀ x, (b.chain first second).2 = .ok x → x.immutable = true ∧ x.flagsConsistent := by
  unfold chain
  cases hv : (first b).2 with
  | error e => simp [hv, h1.1]
  | ok ret1 =>
      obtain ⟨hi1, hc1⟩ := h1.2 ret1 hv
      simp only [hv, hb, if_pos]
      exact ⟨h1.1, fun x hx => (h2 ret1 hi1 hc1).2 x hx⟩

end CronBuilder

namespace CronBuilder

theorem at_minute_fst_of_error (b : CronBuilder) (minute : Int) (e : CronError)
    (h : (b.at_minute minute).2 = .error e) : (b.at_minute minute).1 = b := by
  unfold at_minute at h ⊢
  exact with_field_fst_of_error b _ _ _
    (fun e2 he => CronField.set_value_fst_of_error _ minute e2 he) rfl e h

theorem at_minute_imm (b : CronBuilder) (minute : Int) (hb : b.immutable = true)
    (hc : b.flagsConsistent) :
    (b.at_minute minute).1 = b ∧
      ∀ b2, (b.at_minute minute).2 = .ok b2 → b2.immutable = true ∧ b2.flagsConsistent := by
  unfold at_minute
  exact with_field_imm b _ _ _ hb
    (CronField.set_value_fst_imm _ minute (hc.1.trans hb))
    rfl
    (fun g hg => by rw [CronField.set_value_ok _ minute _ hg]; exact hc.1.trans hb)
    (fun g hg => ⟨hb, by unfold CronBuilder.flagsConsistent; exact ⟨hg.trans hb.symm, hc.2.1, hc.2.2.1, hc.2.2.2.1, hc.2.2.2.2⟩⟩)

theorem at_minutes_fst_of_error (b : CronBuilder) (minutes : List Int) (e : CronError)
    (h : (b.at_minutes minutes).2 = .error e) : (b.at_minutes minutes).1 = b := by
  unfold at_minutes at h ⊢
  exact with_field_fst_of_error b _ _ _
    (fun e2 he => CronField.set_values_fst_of_error _ minutes e2 he) rfl e h

theorem at_minutes_imm (b : CronBuilder) (minutes : List Int) (hb : b.immutable = true)
    (hc : b.flagsConsistent) :
    (b.at_minutes minutes).1 = b ∧
      ∀ b2, (b.at_minutes minutes).2 = .ok b2 → b2.immutable = true ∧ b2.flagsConsistent := by
  unfold at_minutes
  exact with_field_imm b _ _ _ hb
    (CronField.set_values_fst_imm _ minutes (hc.1.trans hb))
    rfl
    (fun g hg => by rw [CronField.set_values_ok _ minutes _ hg]; exact hc.1.trans hb)
    (fun g hg => ⟨hb, by unfold CronBuilder.flagsConsistent; exact ⟨hg.trans hb.symm, hc.2.1, hc.2.2.1, hc.2.2.2.1, hc.2.2.2.2⟩⟩)

theorem every_minutes_fst_of_error (b : CronBuilder) (interval : Int) (e : CronError)
    (h : (b.every_minutes interval).2 = .error e) : (b.every_minutes interval).1 = b := by
  unfold every_minutes at h ⊢
  exact with_field_fst_of_error b _ _ _
    (fun e2 he => CronField.set_interval_fst_of_error _ interval (-1) e2 he) rfl e h

theorem every_minutes_imm (b : CronBuilder) (interval : Int) (hb : b.immutable = true)
    (hc : b.flagsConsistent) :
    (b.every_minutes interval).1 = b ∧
      ∀ b2, (b.every_minutes interval).2 = .ok b2 → b2.immutable = true ∧ b2.flagsConsistent := by
  unfold every_minutes
  exact with_field_imm b _ _ _ hb
    (CronField.set_interval_fst_imm _ interval (-1) (hc.1.trans hb))
    rfl
    (fun g hg => by rw [CronField.set_interval_ok _ interval (-1) _ hg]; exact hc.1.trans hb)
    (fun g hg => ⟨hb, by unfold CronBuilder.flagsConsistent; exact ⟨hg.trans hb.symm, hc.2.1, hc.2.2.1, hc.2.2.2.1, hc.2.2.2.2⟩⟩)

theorem minute_range_fst_of_error (b : CronBuilder) (start stop : Int) (e : CronError)
    (h : (b.minute_range start stop).2 = .error e) : (b.minute_range start stop).1 = b := by
  unfold minute_range at h ⊢
  exact with_field_fst_of_error b _ _ _
    (fun e2 he => CronField.set_range_fst_of_error _ start stop e2 he) rfl e h

theorem minute_range_imm (b : CronBuilder) (start stop : Int) (hb : b.immutable = true)
    (hc : b.flagsConsistent) :
    (b.minute_range start stop).1 = b ∧
      ∀ b2, (b.minute_range start stop).2 = .ok b2 → b2.immutable = true ∧ b2.flagsConsistent := by
  unfold minute_range
  exact with_field_imm b _ _ _ hb
    (CronField.set_range_fst_imm _ start stop (hc.1.trans hb))
    rfl
    (fun g hg => by rw [CronField.set_range_ok _ start stop _ hg]; exact hc.1.trans hb)
    (fun g hg => ⟨hb, by unfold CronBuilder.flagsConsistent; exact ⟨hg.trans hb.symm, hc.2.1, hc.2.2.1, hc.2.2.2.1, hc.2.2.2.2⟩⟩)

theorem at_hour_fst_of_error (b : CronBuilder) (hour : Int) (e : CronError)
    (h : (b.at_hour hour).2 = .error e) : (b.at_hour hour).1 = b := by
  unfold at_hour at h ⊢
  exact with_field_fst_of_error b _ _ _
    (fun e2 he => CronField.set_value_fst_of_error _ hour e2 he) rfl e h

theorem at_hour_imm (b : CronBuilder) (hour : Int) (hb : b.immutable = true)
    (hc : b.flagsConsistent) :
    (b.at_hour hour).1 = b ∧
      ∀ b2, (b.at_hour hour).2 = .ok b2 → b2.immutable = true ∧ b2.flagsConsistent := by
  unfold at_hour
  exact with_field_imm b _ _ _ hb
    (CronField.set_value_fst_imm _ hour (hc.2.1.trans hb))
    rfl
    (fun g hg => by rw [CronField.set_value_ok _ hour _ hg]; exact hc.2.1.trans hb)
    (fun g hg => ⟨hb, by unfold CronBuilder.flagsConsistent; exact ⟨hc.1, hg.trans hb.symm, hc.2.2.1, hc.2.2.2.1, hc.2.2.2.2⟩⟩)

theorem at_hours_fst_of_error (b : CronBuilder) (hours : List Int) (e : CronError)
    (h : (b.at_hours hours).2 = .error e) : (b.at_hours hours).1 = b := by
  unfold at_hours at h ⊢
  exact with_field_fst_of_error b _ _ _
    (fun e2 he => CronField.set_values_fst_of_error _ hours e2 he) rfl e h

theorem at_hours_imm (b : CronBuilder) (hours : List Int) (hb : b.immutable = true)
    (hc : b.flagsConsistent) :
    (b.at_hours hours).1 = b ∧
      ∀ b2, (b.at_hours hours).2 = .ok b2 → b2.immutable = true ∧ b2.flagsConsistent := by
  unfold at_hours
  exact with_field_imm b _ _ _ hb
    (CronField.set_values_fst_imm _ hours (hc.2.1.trans hb))
    rfl
    (fun g hg => by rw [CronField.set_values_ok _ hours _ hg]; exact hc.2.1.trans hb)
    (fun g hg => ⟨hb, by unfold CronBuilder.flagsConsistent; exact ⟨hc.1, hg.trans hb.symm, hc.2.2.1, hc.2.2.2.1, hc.2.2.2.2⟩⟩)

theorem every_hours_fst_of_error (b : CronBuilder) (interval : Int) (e : CronError)
    (h : (b.every_hours interval).2 = .error e) : (b.every_hours interval).1 = b := by
  unfold every_hours at h ⊢
  exact with_field_fst_of_error b _ _ _
    (fun e2 he => CronField.set_interval_fst_of_error _ interval (-1) e2 he) rfl e h

theorem every_hours_imm (b : CronBuilder) (interval : Int) (hb : b.immutable = true)
    (hc : b.flagsConsistent) :
    (b.every_hours interval).1 = b ∧
      ∀ b2, (b.every_hours interval).2 = .ok b2 → b2.immutable = true ∧ b2.flagsConsistent := by
  unfold every_hours
  exact with_field_imm b _ _ _ hb
    (CronField.set_interval_fst_imm _ interval (-1) (hc.2.1.trans hb))
    rfl
    (fun g hg => by rw [CronField.set_interval_ok _ interval (-1) _ hg]; exact hc.2.1.trans hb)
    (fun g hg => ⟨hb, by unfold CronBuilder.flagsConsistent; exact ⟨hc.1, hg.trans hb.symm, hc.2.2.1, hc.2.2.2.1, hc.2.2.2.2⟩⟩)

theorem hour_range_fst_of_error (b : CronBuilder) (start stop : Int) (e : CronError)
    (h : (b.hour_range start stop).2 = .error e) : (b.hour_range start stop).1 = b := by
  unfold hour_range at h ⊢
  exact with_field_fst_of_error b _ _ _
    (fun e2 he => CronField.set_range_fst_of_error _ start stop e2 he) rfl e h

theorem hour_range_imm (b : CronBuilder) (start stop : Int) (hb : b.immutable = true)
    (hc : b.flagsConsistent) :
    (b.hour_range start stop).1 = b ∧
      ∀ b2, (b.hour_range start stop).2 = .ok b2 → b2.immutable = true ∧ b2.flagsConsistent := by
  unfold hour_range
  exact with_field_imm b _ _ _ hb
    (CronField.set_range_fst_imm _ start stop (hc.2.1.trans hb))
    rfl
    (fun g hg => by rw [CronField.set_range_ok _ start stop _ hg]; exact hc.2.1.trans hb)
    (fun g hg => ⟨hb, by unfold CronBuilder.flagsConsistent; exact ⟨hc.1, hg.trans hb.symm, hc.2.2.1, hc.2.2.2.1, hc.2.2.2.2⟩⟩)

theorem on_dom_fst_of_error (b : CronBuilder) (day : Int) (e : CronError)
    (h : (b.on_dom day).2 = .error e) : (b.on_dom day).1 = b := by
  unfold on_dom at h ⊢
  exact with_field_fst_of_error b _ _ _
    (fun e2 he => CronField.set_value_fst_of_error _ day e2 he) rfl e h

theorem on_dom_imm (b : CronBuilder) (day : Int) (hb : b.immutable = true)
    (hc : b.flagsConsistent) :
    (b.on_dom day).1 = b ∧
      ∀ b2, (b.on_dom day).2 = .ok b2 → b2.immutable = true ∧ b2.flagsConsistent := by
  unfold on_dom
  exact with_field_imm b _ _ _ hb
    (CronField.set_value_fst_imm _ day (hc.2.2.1.trans hb))
    rfl
    (fun g hg => by rw [CronField.set_value_ok _ day _ hg]; exact hc.2.2.1.trans hb)
    (fun g hg => ⟨hb, by unfold CronBuilder.flagsConsistent; exact ⟨hc.1, hc.2.1, hg.trans hb.symm, hc.2.2.2.1, hc.2.2.2.2⟩⟩)

theorem on_doms_fst_of_error (b : CronBuilder) (days : List Int) (e : CronError)
    (h : (b.on_doms days).2 = .error e) : (b.on_doms days).1 = b := by
  unfold on_doms at h ⊢
  exact with_field_fst_of_error b _ _ _
    (fun e2 he => CronField.set_values_fst_of_error _ days e2 he) rfl e h

theorem on_doms_imm (b : CronBuilder) (days : List Int) (hb : b.immutable = true)
    (hc : b.flagsConsistent) :
    (b.on_doms days).1 = b ∧
      ∀ b2, (b.on_doms days).2 = .ok b2 → b2.immutable = true ∧ b2.flagsConsistent := by
  unfold on_doms
  exact with_field_imm b _ _ _ hb
    (CronField.set_values_fst_imm _ days (hc.2.2.1.trans hb))
    rfl
    (fun g hg => by rw [CronField.set_values_ok _ days _ hg]; exact hc.2.2.1.trans hb)
    (fun g hg => ⟨hb, by unfold CronBuilder.flagsConsistent; exact ⟨hc.1, hc.2.1, hg.trans hb.symm, hc.2.2.2.1, hc.2.2.2.2⟩⟩)

theorem dom_range_fst_of_error (b : CronBuilder) (start stop : Int) (e : CronError)
    (h : (b.dom_range start stop).2 = .error e) : (b.dom_range start stop).1 = b := by
  unfold dom_range at h ⊢
  exact with_field_fst_of_error b _ _ _
    (fun e2 he => CronField.set_range_fst_of_error _ start stop e2 he) rfl e h

theorem dom_range_imm (b : CronBuilder) (start stop : Int) (hb : b.immutable = true)
    (hc : b.flagsConsistent) :
    (b.dom_range start stop).1 = b ∧
      ∀ b2, (b.dom_range start stop).2 = .ok b2 → b2.immutable = true ∧ b2.flagsConsistent := by
  unfold dom_range
  exact with_field_imm b _ _ _ hb
    (CronField.set_range_fst_imm _ start stop (hc.2.2.1.trans hb))
    rfl
    (fun g hg => by rw [CronField.set_range_ok _ start stop _ hg]; exact hc.2.2.1.trans hb)
    (fun g hg => ⟨hb, by unfold CronBuilder.flagsConsistent; exact ⟨hc.1, hc.2.1, hg.trans hb.symm, hc.2.2.2.1, hc.2.2.2.2⟩⟩)

theorem in_month_fst_of_error (b : CronBuilder) (month : Int) (e : CronError)
    (h : (b.in_month month).2 = .error e) : (b.in_month month).1 = b := by
  unfold in_month at h ⊢
  exact with_field_fst_of_error b _ _ _
    (fun e2 he => CronField.set_value_fst_of_error _ month e2 he) rfl e h

theorem in_month_imm (b : CronBuilder) (month : Int) (hb : b.immutable = true)
    (hc : b.flagsConsistent) :
    (b.in_month month).1 = b ∧
      ∀ b2, (b.in_month month).2 = .ok b2 → b2.immutable = true ∧ b2.flagsConsistent := by
  unfold in_month
  exact with_field_imm b _ _ _ hb
    (CronField.set_value_fst_imm _ month (hc.2.2.2.1.trans hb))
    rfl
    (fun g hg => by rw [CronField.set_value_ok _ month _ hg]; exact hc.2.2.2.1.trans hb)
    (fun g hg => ⟨hb, by unfold CronBuilder.flagsConsistent; exact ⟨hc.1, hc.2.1, hc.2.2.1, hg.trans hb.symm, hc.2.2.2.2⟩⟩)

theorem in_months_fst_of_error (b : CronBuilder) (months : List Int) (e : CronError)
    (h : (b.in_months months).2 = .error e) : (b.in_months months).1 = b := by
  unfold in_months at h ⊢
  exact with_field_fst_of_error b _ _ _
    (fun e2 he => CronField.set_values_fst_of_error _ months e2 he) rfl e h

theorem in_months_imm (b : CronBuilder) (months : List Int) (hb : b.immutable = true)
    (hc : b.flagsConsistent) :
    (b.in_months months).1 = b ∧
      ∀ b2, (b.in_months months).2 = .ok b2 → b2.immutable = true ∧ b2.flagsConsistent := by
  unfold in_months
  exact with_field_imm b _ _ _ hb
    (CronField.set_values_fst_imm _ months (hc.2.2.2.1.trans hb))
    rfl
    (fun g hg => by rw [CronField.set_values_ok _ months _ hg]; exact hc.2.2.2.1.trans hb)
    (fun g hg => ⟨hb, by unfold CronBuilder.flagsConsistent; exact ⟨hc.1, hc.2.1, hc.2.2.1, hg.trans hb.symm, hc.2.2.2.2⟩⟩)

theorem month_range_fst_of_error (b : CronBuilder) (start stop : Int) (e : CronError)
    (h : (b.month_range start stop).2 = .error e) : (b.month_range start stop).1 = b := by
  unfold month_range at h ⊢
  exact with_field_fst_of_error b _ _ _
    (fun e2 he => CronField.set_range_fst_of_error _ start stop e2 he) rfl e h

theorem month_range_imm (b : CronBuilder) (start stop : Int) (hb : b.immutable = true)
    (hc : b.flagsConsistent) :
    (b.month_range start stop).1 = b ∧
      ∀ b2, (b.month_range start stop).2 = .ok b2 → b2.immutable = true ∧ b2.flagsConsistent := by
  unfold month_range
  exact with_field_imm b _ _ _ hb
    (CronField.set_range_fst_imm _ start stop (hc.2.2.2.1.trans hb))
    rfl
    (fun g hg => by rw [CronField.set_range_ok _ start stop _ hg]; exact hc.2.2.2.1.trans hb)
    (fun g hg => ⟨hb, by unfold CronBuilder.flagsConsistent; exact ⟨hc.1, hc.2.1, hc.2.2.1, hg.trans hb.symm, hc.2.2.2.2⟩⟩)

theorem on_dow_fst_of_error (b : CronBuilder) (day : Int) (e : CronError)
    (h : (b.on_dow day).2 = .error e) : (b.on_dow day).1 = b := by
  unfold on_dow at h ⊢
  exact with_field_fst_of_error b _ _ _
    (fun e2 he => CronField.set_value_fst_of_error _ day e2 he) rfl e h

theorem on_dow_imm (b : CronBuilder) (day : Int) (hb : b.immutable = true)
    (hc : b.flagsConsistent) :
    (b.on_dow day).1 = b ∧
      ∀ b2, (b.on_dow day).2 = .ok b2 → b2.immutable = true ∧ b2.flagsConsistent := by
  unfold on_dow
  exact with_field_imm b _ _ _ hb
    (CronField.set_value_fst_imm _ day (hc.2.2.2.2.trans hb))
    rfl
    (fun g hg => by rw [CronField.set_value_ok _ day _ hg]; exact hc.2.2.2.2.trans hb)
    (fun g hg => ⟨hb, by unfold CronBuilder.flagsConsistent; exact ⟨hc.1, hc.2.1, hc.2.2.1, hc.2.2.2.1, hg.trans hb.symm⟩⟩)

theorem on_dows_fst_of_error (b : CronBuilder) (days : List Int) (e : CronError)
    (h : (b.on_dows days).2 = .error e) : (b.on_dows days).1 = b := by
  unfold on_dows at h ⊢
  exact with_field_fst_of_error b _ _ _
    (fun e2 he => CronField.set_values_fst_of_error _ days e2 he) rfl e h

theorem on_dows_imm (b : CronBuilder) (days : List Int) (hb : b.immutable = true)
    (hc : b.flagsConsistent) :
    (b.on_dows days).1 = b ∧
      ∀ b2, (b.on_dows days).2 = .ok b2 → b2.immutable = true ∧ b2.flagsConsistent := by
  unfold on_dows
  exact with_field_imm b _ _ _ hb
    (CronField.set_values_fst_imm _ days (hc.2.2.2.2.trans hb))
    rfl
    (fun g hg => by rw [CronField.set_values_ok _ days _ hg]; exact hc.2.2.2.2.trans hb)
    (fun g hg => ⟨hb, by unfold CronBuilder.flagsConsistent; exact ⟨hc.1, hc.2.1, hc.2.2.1, hc.2.2.2.1, hg.trans hb.symm⟩⟩)

theorem on_weekdays_fst_of_error (b : CronBuilder) (e : CronError)
    (h : (b.on_weekdays).2 = .error e) : (b.on_weekdays).1 = b := by
  unfold on_weekdays at h ⊢
  exact with_field_fst_of_error b _ _ _
    (fun e2 he => CronField.set_range_fst_of_error _ 1 5 e2 he) rfl e h

theorem on_weekdays_imm (b : CronBuilder) (hb : b.immutable = true)
    (hc : b.flagsConsistent) :
    (b.on_weekdays).1 = b ∧
      ∀ b2, (b.on_weekdays).2 = .ok b2 → b2.immutable = true ∧ b2.flagsConsistent := by
  unfold on_weekdays
  exact with_field_imm b _ _ _ hb
    (CronField.set_range_fst_imm _ 1 5 (hc.2.2.2.2.trans hb))
    rfl
    (fun g hg => by rw [CronField.set_range_ok _ 1 5 _ hg]; exact hc.2.2.2.2.trans hb)
    (fun g hg => ⟨hb, by unfold CronBuilder.flagsConsistent; exact ⟨hc.1, hc.2.1, hc.2.2.1, hc.2.2.2.1, hg.trans hb.symm⟩⟩)

theorem on_weekends_fst_of_error (b : CronBuilder) (e : CronError)
    (h : (b.on_weekends).2 = .error e) : (b.on_weekends).1 = b := by
  unfold on_weekends at h ⊢
  exact with_field_fst_of_error b _ _ _
    (fun e2 he => CronField.set_values_fst_of_error _ [0, 6] e2 he) rfl e h

theorem on_weekends_imm (b : CronBuilder) (hb : b.immutable = true)
    (hc : b.flagsConsistent) :
    (b.on_weekends).1 = b ∧
      ∀ b2, (b.on_weekends).2 = .ok b2 → b2.immutable = true ∧ b2.flagsConsistent := by
  unfold on_weekends
  exact with_field_imm b _ _ _ hb
    (CronField.set_values_fst_imm _ [0, 6] (hc.2.2.2.2.trans hb))
    rfl
    (fun g hg => by rw [CronField.set_values_ok _ [0, 6] _ hg]; exact hc.2.2.2.2.trans hb)
    (fun g hg => ⟨hb, by unfold CronBuilder.flagsConsistent; exact ⟨hc.1, hc.2.1, hc.2.2.1, hc.2.2.2.1, hg.trans hb.symm⟩⟩)

theorem dow_range_fst_of_error (b : CronBuilder) (start stop : Int) (e : CronError)
    (h : (b.dow_range start stop).2 = .error e) : (b.dow_range start stop).1 = b := by
  unfold dow_range at h ⊢
  exact with_field_fst_of_error b _ _ _
    (fun e2 he => CronField.set_range_fst_of_error _ start stop e2 he) rfl e h

theorem dow_range_imm (b : CronBuilder) (start stop : Int) (hb : b.immutable = true)
    (hc : b.flagsConsistent) :
    (b.dow_range start stop).1 = b ∧
      ∀ b2, (b.dow_range start stop).2 = .ok b2 → b2.immutable = true ∧ b2.flagsConsistent := by
  unfold dow_range
  exact with_field_imm b _ _ _ hb
    (CronField.set_range_fst_imm _ start stop (hc.2.2.2.2.trans hb))
    rfl
    (fun g hg => by rw [CronField.set_range_ok _ start stop _ hg]; exact hc.2.2.2.2.trans hb)
    (fun g hg => ⟨hb, by unfold CronBuilder.flagsConsistent; exact ⟨hc.1, hc.2.1, hc.2.2.1, hc.2.2.2.1, hg.trans hb.symm⟩⟩)

end CronBuilder

namespace CronBuilder

theorem and_dow_fst_of_error (b : CronBuilder) (day : Int) (e : CronError)
    (h : (b.and_dow day).2 = .error e) : (b.and_dow day).1 = b := by
  unfold and_dow at h ⊢
  by_cases hk : (b.day_of_month.expr.kind == "any") = true <;> simp [hk] at h ⊢

theorem and_dom_fst_of_error (b : CronBuilder) (day : Int) (e : CronError)
    (h : (b.and_dom day).2 = .error e) : (b.and_dom day).1 = b := by
  unfold and_dom at h ⊢
  by_cases hk : (b.day_of_week.expr.kind == "any") = true <;> simp [hk] at h ⊢

theorem and_dow_imm (b : CronBuilder) (day : Int) (hb : b.immutable = true)
    (hc : b.flagsConsistent) :
    (b.and_dow day).1 = b ∧
      ∀ b2, (b.and_dow day).2 = .ok b2 → b2.immutable = true ∧ b2.flagsConsistent := by
  unfold and_dow
  by_cases hk : (b.day_of_month.expr.kind == "any") = true
  · simp [hk]
  · simp only [hk, Bool.false_eq_true, if_neg, ite_false]
    refine ⟨copy_with_fst_imm b _ hb, fun b2 hb2 => ?_⟩
    simp only [copy_with_snd, Except.ok.injEq] at hb2
    subst hb2
    exact ⟨hb, hc⟩

theorem and_dom_imm (b : CronBuilder) (day : Int) (hb : b.immutable = true)
    (hc : b.flagsConsistent) :
    (b.and_dom day).1 = b ∧
      ∀ b2, (b.and_dom day).2 = .ok b2 → b2.immutable = true ∧ b2.flagsConsistent := by
  unfold and_dom
  by_cases hk : (b.day_of_week.expr.kind == "any") = true
  · simp [hk]
  · simp only [hk, Bool.false_eq_true, if_neg, ite_false]
    refine ⟨copy_with_fst_imm b _ hb, fun b2 hb2 => ?_⟩
    simp only [copy_with_snd, Except.ok.injEq] at hb2
    subst hb2
    exact ⟨hb, hc⟩

theorem at_imm (b : CronBuilder) (hour minute : Int) (hb : b.immutable = true)
    (hc : b.flagsConsistent) :
    (b.«at» hour minute).1 = b ∧
      ∀ b2, (b.«at» hour minute).2 = .ok b2 → b2.immutable = true ∧ b2.flagsConsistent := by
  unfold «at»
  exact chain_imm b _ _ hb (at_hour_imm b hour hb hc)
    (fun c cb cc => at_minute_imm c minute cb cc)

theorem hourly_imm (b : CronBuilder) (minute : Int) (hb : b.immutable = true)
    (hc : b.flagsConsistent) :
    (b.hourly minute).1 = b ∧
      ∀ b2, (b.hourly minute).2 = .ok b2 → b2.immutable = true ∧ b2.flagsConsistent := by
  unfold hourly
  exact at_minute_imm b minute hb hc

theorem daily_imm (b : CronBuilder) (hour minute : Int) (hb : b.immutable = true)
    (hc : b.flagsConsistent) :
    (b.daily hour minute).1 = b ∧
      ∀ b2, (b.daily hour minute).2 = .ok b2 → b2.immutable = true ∧ b2.flagsConsistent := by
  unfold daily
  exact at_imm b hour minute hb hc

theorem weekly_imm (b : CronBuilder) (day hour minute : Int) (hb : b.immutable = true)
    (hc : b.flagsConsistent) :
    (b.weekly day hour minute).1 = b ∧
      ∀ b2, (b.weekly day hour minute).2 = .ok b2 → b2.immutable = true ∧ b2.flagsConsistent := by
  unfold weekly
  exact chain_imm b _ _ hb (at_imm b hour minute hb hc)
    (fun c cb cc => on_dow_imm c day cb cc)

theorem monthly_imm (b : CronBuilder) (day hour minute : Int) (hb : b.immutable = true)
    (hc : b.flagsConsistent) :
    (b.monthly day hour minute).1 = b ∧
      ∀ b2, (b.monthly day hour minute).2 = .ok b2 → b2.immutable = true ∧ b2.flagsConsistent := by
  unfold monthly
  exact chain_imm b _ _ hb (at_imm b hour minute hb hc)
    (fun c cb cc => on_dom_imm c day cb cc)

theorem yearly_imm (b : CronBuilder) (month day hour minute : Int) (hb : b.immutable = true)
    (hc : b.flagsConsistent) :
    (b.yearly month day hour minute).1 = b ∧
      ∀ b2, (b.yearly month day hour minute).2 = .ok b2 → b2.immutable = true ∧ b2.flagsConsistent := by
  unfold yearly
  refine chain_imm b _ _ hb ?_ (fun c cb cc => in_month_imm c month cb cc)
  exact chain_imm b _ _ hb (at_imm b hour minute hb hc)
    (fun c cb cc => on_dom_imm c day cb cc)

end CronBuilder

/-- Every API call on an immutable-mode builder (with the mode flag shared
by its fields, as construction guarantees) leaves the receiver untouched,
and any builder it returns is again immutable-mode with consistent flags. -/
theorem Op.run_imm (b : CronBuilder) (op : Op) (hb : b.immutable = true)
    (hc : b.flagsConsistent) :
    (Op.run b op).1 = b ∧
      ∀ b2, (Op.run b op).2 = .ok b2 → b2.immutable = true ∧ b2.flagsConsistent := by
  cases op with
  | at_minute v => exact CronBuilder.at_minute_imm b v hb hc
  | at_minutes vs => exact CronBuilder.at_minutes_imm b vs hb hc
  | every_minutes i => exact CronBuilder.every_minutes_imm b i hb hc
  | minute_range lo hi => exact CronBuilder.minute_range_imm b lo hi hb hc
  | at_hour v => exact CronBuilder.at_hour_imm b v hb hc
  | at_hours vs => exact CronBuilder.at_hours_imm b vs hb hc
  | every_hours i => exact CronBuilder.every_hours_imm b i hb hc
  | hour_range lo hi => exact CronBuilder.hour_range_imm b lo hi hb hc
  | «at» h m => exact CronBuilder.at_imm b h m hb hc
  | on_dom v => exact CronBuilder.on_dom_imm b v hb hc
  | on_doms vs => exact CronBuilder.on_doms_imm b vs hb hc
  | dom_range lo hi => exact CronBuilder.dom_range_imm b lo hi hb hc
  | in_month v => exact CronBuilder.in_month_imm b v hb hc
  | in_months vs => exact CronBuilder.in_months_imm b vs hb hc
  | month_range lo hi => exact CronBuilder.month_range_imm b lo hi hb hc
  | on_dow v => exact CronBuilder.on_dow_imm b v hb hc
  | on_dows vs => exact CronBuilder.on_dows_imm b vs hb hc
  | on_weekdays => exact CronBuilder.on_weekdays_imm b hb hc
  | on_weekends => exact CronBuilder.on_weekends_imm b hb hc
  | dow_range lo hi => exact CronBuilder.dow_range_imm b lo hi hb hc
  | hourly m => exact CronBuilder.hourly_imm b m hb hc
  | daily h m => exact CronBuilder.daily_imm b h m hb hc
  | weekly d h m => exact CronBuilder.weekly_imm b d h m hb hc
  | monthly d h m => exact CronBuilder.monthly_imm b d h m hb hc
  | yearly mo d h m => exact CronBuilder.yearly_imm b mo d h m hb hc
  | and_dow d => exact CronBuilder.and_dow_imm b d hb hc
  | and_dom d => exact CronBuilder.and_dom_imm b d hb hc

deriving instance DecidableEq for Except

/-- Claim C1: for every builder and timestamp, `should_run` equals the
spec's reference definition: `true` when no conjunction is recorded;
otherwise, with the weekday converted to Sunday = 0, a `dow` anchor
requires the day-of-month expression to match the day AND the weekday to
equal the anchor, and a `dom` anchor requires the day-of-week expression
to match the weekday AND the day to equal the anchor. -/
theorem C1_should_run_refines_spec (b : CronBuilder) (dt : Timestamp) :
    b.should_run dt = should_run_spec b dt := by
  unfold CronBuilder.should_run should_run_spec
  cases hc : b.conjunction with
  | none => rfl
  | some c =>
      obtain ⟨k, v⟩ := c
      cases k <;> split <;> simp_all [CronField.«matches»]

/-- Claim C10: `should_run` reads only the day-of-month expression, the
day-of-week expression and the conjunction marker: two builders agreeing
on those three give the same result on every timestamp, whatever their
minute, hour and month fields hold. -/
theorem C10_should_run_frame (b1 b2 : CronBuilder) (dt : Timestamp)
    (hdom : b1.day_of_month.expr = b2.day_of_month.expr)
    (hdow : b1.day_of_week.expr = b2.day_of_week.expr)
    (hconj : b1.conjunction = b2.conjunction) :
    b1.should_run dt = b2.should_run dt := by
  unfold CronBuilder.should_run
  rw [hconj]
  cases b2.conjunction with
  | none => rfl
  | some c =>
      obtain ⟨k, v⟩ := c
      cases k <;> simp [CronField.«matches», hdom, hdow]

/-- Claim C10 witness: two builders differing only in the minute field
agree on `should_run`. -/
theorem C10_witness :
    (CronBuilder.new false).should_run ⟨1, 0⟩ =
      CronBuilder.should_run
        { CronBuilder.new false with
            minute := { CronField.new 0 59 "minute" false with expr := CronExpr.value 5 } }
        ⟨1, 0⟩ :=
  C10_should_run_frame _ _ _ (by decide) (by decide) (by decide)

/-- Claim C7: per-kind canonical rendering (`*`, `v`, comma-joined list,
`lo-hi`, `*/interval` resp. `start/interval`), the builder rendering as the
five field tokens space-separated in the fixed order, and the fresh
builder rendering exactly `* * * * *`. -/
theorem C7_rendering :
    (CronExpr.any.to_cron_str = "*") ∧
    (∀ v : Int, (CronExpr.value v).to_cron_str = toString v) ∧
    (∀ vs : List Int, (CronExpr.list vs).to_cron_str =
        String.intercalate "," (vs.map toString)) ∧
    (∀ lo hi : Int, (CronExpr.range lo hi).to_cron_str =
        toString lo ++ "-" ++ toString hi) ∧
    (∀ i : Int, (CronExpr.step (-1) i).to_cron_str = "*/" ++ toString i) ∧
    (∀ s i : Int, s ≠ -1 →
        (CronExpr.step s i).to_cron_str = toString s ++ "/" ++ toString i) ∧
    (∀ b : CronBuilder, b.render =
        b.minute.expr.to_cron_str ++ " " ++ b.hour.expr.to_cron_str ++ " " ++
          b.day_of_month.expr.to_cron_str ++ " " ++ b.month.expr.to_cron_str ++ " " ++
          b.day_of_week.expr.to_cron_str) ∧
    ((CronBuilder.new false).render = "* * * * *") ∧
    ((CronBuilder.new true).render = "* * * * *") := by
  refine ⟨rfl, fun v => rfl, fun vs => rfl, fun lo hi => rfl, fun i => by
    simp [CronExpr.to_cron_str], fun s i hs => ?_, fun b => rfl, by decide, by decide⟩
  simp [CronExpr.to_cron_str, hs]

/-- Claim C7 witness: an explicit-start step renders `start/interval`. -/
theorem C7_witness :
    (CronExpr.step 5 2).to_cron_str = toString (5 : Int) ++ "/" ++ toString (2 : Int) :=
  C7_rendering.2.2.2.2.2.1 5 2 (by decide)

/-- Claim C2: for any field and `interval > 0`, `set_interval` with the
wildcard start succeeds and the resulting expression matches exactly the
multiples of `interval`; with an explicit in-bounds start it succeeds and
matches exactly the `x ≥ start` congruent to `start` modulo `interval` —
for every `x` in the field's bounds. -/
theorem C2_set_interval_semantics (f : CronField) (interval start x : Int)
    (hi : 0 < interval) (hx : f.min_val ≤ x ∧ x ≤ f.max_val) :
    ((f.set_interval interval (-1)).2 =
        Except.ok { f with expr := CronExpr.step (-1) interval } ∧
      (CronExpr.step (-1) interval).«matches» x = (x % interval == 0)) ∧
    (start ≠ -1 → f.min_val ≤ start → start ≤ f.max_val →
      (f.set_interval interval start).2 =
          Except.ok { f with expr := CronExpr.step start interval } ∧
        (CronExpr.step start interval).«matches» x =
          (decide (x ≥ start) && ((x - start) % interval == 0))) := by
  have hni : ¬ interval ≤ 0 := by omega
  constructor
  · constructor
    · unfold CronField.set_interval
      simp [hni, CronField.apply_expr_snd]
    · simp [CronExpr.«matches»]
  · intro hs h1 h2
    constructor
    · unfold CronField.set_interval
      have hv : f.validate_value start = Except.ok () := by
        unfold CronField.validate_value
        exact if_neg (not_not_intro ⟨h1, h2⟩)
      simp [hni, hs, hv, CronField.apply_expr_snd]
    · simp [CronExpr.«matches», hs]

/-- Claim C2 witness. -/
theorem C2_witness :
    ((CronField.new 0 59 "minute" false).set_interval 15 5).2 =
        Except.ok { CronField.new 0 59 "minute" false with expr := CronExpr.step 5 15 } ∧
      (CronExpr.step 5 15).«matches» 35 = (decide ((35 : Int) ≥ 5) && (((35 : Int) - 5) % 15 == 0)) :=
  (C2_set_interval_semantics (CronField.new 0 59 "minute" false) 15 5 35
    (by decide) (by decide)).2 (by decide) (by decide) (by decide)

/-- Claim C3: for any field and `min ≤ lo ≤ hi ≤ max`, `set_range`
succeeds and the resulting expression matches exactly the `x` with
`lo ≤ x ≤ hi`, for every `x` in the field's bounds. -/
theorem C3_set_range_semantics (f : CronField) (lo hi x : Int)
    (h1 : f.min_val ≤ lo) (h2 : lo ≤ hi) (h3 : hi ≤ f.max_val)
    (hx : f.min_val ≤ x ∧ x ≤ f.max_val) :
    (f.set_range lo hi).2 = Except.ok { f with expr := CronExpr.range lo hi } ∧
      (CronExpr.range lo hi).«matches» x = (decide (lo ≤ x) && decide (x ≤ hi)) := by
  constructor
  · have ha : f.validate_value lo = Except.ok () := by
      unfold CronField.validate_value
      exact if_neg (not_not_intro ⟨h1, h2.trans h3⟩)
    have hb : f.validate_value hi = Except.ok () := by
      unfold CronField.validate_value
      exact if_neg (not_not_intro ⟨h1.trans h2, h3⟩)
    unfold CronField.set_range
    simp [ha, hb, not_lt.mpr h2, CronField.apply_expr_snd]
  · rfl

/-- Claim C3 witness. -/
theorem C3_witness :
    ((CronField.new 0 23 "hour" false).set_range 9 17).2 =
        Except.ok { CronField.new 0 23 "hour" false with expr := CronExpr.range 9 17 } ∧
      (CronExpr.range 9 17).«matches» 12 = (decide ((9 : Int) ≤ 12) && decide ((12 : Int) ≤ 17)) :=
  C3_set_range_semantics (CronField.new 0 23 "hour" false) 9 17 12
    (by decide) (by decide) (by decide) (by decide)

/-- Claim C5: `set_interval` fails with a range error whenever the
interval is non-positive; fails with a range error whenever an explicit
(non-sentinel) start is out of bounds; and succeeds whenever the interval
is positive and the start is the sentinel or in bounds. -/
theorem C5_set_interval_validation (f : CronField) (interval start : Int) :
    (interval ≤ 0 →
      (f.set_interval interval start).2 =
        Except.error (CronError.rangeError f.name interval)) ∧
    (0 < interval → start ≠ -1 → ¬ (f.min_val ≤ start ∧ start ≤ f.max_val) →
      (f.set_interval interval start).2 =
        Except.error (CronError.rangeError f.name start)) ∧
    (0 < interval → (start = -1 ∨ (f.min_val ≤ start ∧ start ≤ f.max_val)) →
      (f.set_interval interval start).2 =
        Except.ok { f with expr := CronExpr.step start interval }) := by
  refine ⟨fun h1 => ?_, fun h1 h2 h3 => ?_, fun h1 h2 => ?_⟩
  · unfold CronField.set_interval
    simp [h1]
  · have hni : ¬ interval ≤ 0 := by omega
    have hv : f.validate_value start = Except.error (CronError.rangeError f.name start) := by
      unfold CronField.validate_value
      exact if_pos h3
    unfold CronField.set_interval
    simp [hni, h2, hv]
  · have hni : ¬ interval ≤ 0 := by omega
    unfold CronField.set_interval
    rcases h2 with h2 | h2
    · simp [hni, h2, CronField.apply_expr_snd]
    · by_cases hs : start = -1
      · simp [hni, hs, CronField.apply_expr_snd]
      · have hv : f.validate_value start = Except.ok () := by
          unfold CronField.validate_value
          exact if_neg (not_not_intro h2)
        simp [hni, hs, hv, CronField.apply_expr_snd]

/-- Claim C5 witness: the three branches at concrete inputs on the minute
field. -/
theorem C5_witness :
    ((CronField.new 0 59 "minute" false).set_interval 0 (-1)).2 =
        Except.error (CronError.rangeError "minute" 0) ∧
    ((CronField.new 0 59 "minute" false).set_interval 5 99).2 =
        Except.error (CronError.rangeError "minute" 99) ∧
    ((CronField.new 0 59 "minute" false).set_interval 5 10).2 =
        Except.ok { CronField.new 0 59 "minute" false with expr := CronExpr.step 10 5 } :=
  ⟨(C5_set_interval_validation (CronField.new 0 59 "minute" false) 0 (-1)).1 (by decide),
   (C5_set_interval_validation (CronField.new 0 59 "minute" false) 5 99).2.1
     (by decide) (by decide) (by decide),
   (C5_set_interval_validation (CronField.new 0 59 "minute" false) 5 10).2.2
     (by decide) (Or.inr (by decide))⟩

theorem CronExpr.kind_eq_any (e : CronExpr) :
    (e.kind == "any") = true ↔ e = CronExpr.any := by
  cases e <;> simp [CronExpr.kind]

/-- Claim C4: `and_dow` fails with the state error exactly when
day-of-month is still the wildcard, leaving the builder untouched, and
otherwise succeeds recording the conjunction `(dow, day)`; symmetrically
`and_dom` keys on day-of-week and records `(dom, day)`. -/
theorem C4_conjunction_preconditions (b : CronBuilder) (day : Int) :
    (b.day_of_month.expr = CronExpr.any →
      b.and_dow day =
        (b, Except.error (CronError.stateError
          "Must set day_of_month before calling and_dow()"))) ∧
    (b.day_of_month.expr ≠ CronExpr.any →
      (b.and_dow day).2 =
        Except.ok { b with conjunction := some (ConjKind.dow, day) }) ∧
    (b.day_of_week.expr = CronExpr.any →
      b.and_dom day =
        (b, Except.error (CronError.stateError
          "Must set day_of_week before calling and_dom()"))) ∧
    (b.day_of_week.expr ≠ CronExpr.any →
      (b.and_dom day).2 =
        Except.ok { b with conjunction := some (ConjKind.dom, day) }) := by
  refine ⟨fun h => ?_, fun h => ?_, fun h => ?_, fun h => ?_⟩
  · unfold CronBuilder.and_dow
    rw [if_pos ((CronExpr.kind_eq_any _).mpr h)]
  · unfold CronBuilder.and_dow
    rw [if_neg (fun hk => h ((CronExpr.kind_eq_any _).mp hk))]
    simp [CronBuilder.copy_with_snd]
  · unfold CronBuilder.and_dom
    rw [if_pos ((CronExpr.kind_eq_any _).mpr h)]
  · unfold CronBuilder.and_dom
    rw [if_neg (fun hk => h ((CronExpr.kind_eq_any _).mp hk))]
    simp [CronBuilder.copy_with_snd]

/-- Claim C4 witness: `and_dow` succeeds once day-of-month is set, and
fails with the state error on a fresh builder, which is left unchanged. -/
theorem C4_witness :
    (CronBuilder.and_dow
        { CronBuilder.new false with
            day_of_month :=
              { CronField.new 1 31 "day_of_month" false with expr := CronExpr.value 1 } }
        3).2 =
      Except.ok
        { { CronBuilder.new false with
              day_of_month :=
                { CronField.new 1 31 "day_of_month" false with expr := CronExpr.value 1 } } with
            conjunction := some (ConjKind.dow, 3) } ∧
    (CronBuilder.new false).and_dow 3 =
      (CronBuilder.new false, Except.error (CronError.stateError
        "Must set day_of_month before calling and_dow()")) :=
  ⟨(C4_conjunction_preconditions _ 3).2.1 (by decide),
   (C4_conjunction_preconditions (CronBuilder.new false) 3).1 (by decide)⟩

/-- Claim C9: the conjunction anchor is never range-validated — `and_dow`
accepts any integer once day-of-month is non-wildcard, `and_dom` accepts
any integer once day-of-week is non-wildcard — and with an out-of-domain
anchor recorded, `should_run` is `false` on every valid timestamp, since
the converted weekday (resp. the day-of-month) can never equal it. -/
theorem C9_anchor_not_validated (b : CronBuilder) (day : Int) (dt : Timestamp)
    (hdt : dt.Valid) :
    (b.day_of_month.expr ≠ CronExpr.any → (day < 0 ∨ 6 < day) →
      (b.and_dow day).2 =
          Except.ok { b with conjunction := some (ConjKind.dow, day) } ∧
        ({ b with conjunction := some (ConjKind.dow, day) } : CronBuilder).should_run dt
          = false) ∧
    (b.day_of_week.expr ≠ CronExpr.any → (day < 1 ∨ 31 < day) →
      (b.and_dom day).2 =
          Except.ok { b with conjunction := some (ConjKind.dom, day) } ∧
        ({ b with conjunction := some (ConjKind.dom, day) } : CronBuilder).should_run dt
          = false) := by
  obtain ⟨hd1, hd2, hw1, hw2⟩ := hdt
  refine ⟨fun hne hday => ⟨?_, ?_⟩, fun hne hday => ⟨?_, ?_⟩⟩
  · unfold CronBuilder.and_dow
    rw [if_neg (fun hk => hne ((CronExpr.kind_eq_any _).mp hk))]
    simp [CronBuilder.copy_with_snd]
  · simp only [CronBuilder.should_run]
    split
    · rfl
    · rw [beq_eq_false_iff_ne]
      omega
  · unfold CronBuilder.and_dom
    rw [if_neg (fun hk => hne ((CronExpr.kind_eq_any _).mp hk))]
    simp [CronBuilder.copy_with_snd]
  · simp only [CronBuilder.should_run]
    split
    · rfl
    · rw [beq_eq_false_iff_ne]
      omega

/-- Claim C9 witness: anchor 7 (outside the weekday domain) is accepted by
`and_dow` and makes `should_run` false at a Sunday the 1st. -/
theorem C9_witness :
    (CronBuilder.and_dow
        { CronBuilder.new false with
            day_of_month :=
              { CronField.new 1 31 "day_of_month" false with expr := CronExpr.value 1 } }
        7).2 =
      Except.ok
        { { CronBuilder.new false with
              day_of_month :=
                { CronField.new 1 31 "day_of_month" false with expr := CronExpr.value 1 } } with
            conjunction := some (ConjKind.dow, 7) } ∧
    CronBuilder.should_run
        { { CronBuilder.new false with
              day_of_month :=
                { CronField.new 1 31 "day_of_month" false with expr := CronExpr.value 1 } } with
            conjunction := some (ConjKind.dow, 7) }
        ⟨1, 6⟩ = false :=
  (C9_anchor_not_validated _ 7 ⟨1, 6⟩ (by decide)).1 (by decide) (by decide)

/-- Claim C6 counterexample: on a mutable-mode builder, the two-step
combinator `at(0, 99)` fails (99 is out of the minute bounds) yet leaves
the builder changed — its hour field was already set to `value 0` by the
first step before the second step raised. -/
theorem C6_counterexample :
    (Op.run (CronBuilder.new false) (Op.«at» 0 99)).2 =
        Except.error (CronError.rangeError "minute" 99) ∧
    (Op.run (CronBuilder.new false) (Op.«at» 0 99)).1 ≠ CronBuilder.new false ∧
    (Op.run (CronBuilder.new false) (Op.«at» 0 99)).1.hour.expr = CronExpr.value 0 := by
  exact ⟨by decide, by decide, by decide⟩

/-- Claim C6 (amended): every single-field setter and every conjunction
setter that fails leaves the builder exactly as it was, in either mode —
validation happens entirely before the stored expression is replaced; and
on an immutable-mode builder (flags consistent) every operation, the
multi-step combinators `at`/`daily`/`weekly`/`monthly`/`yearly` included,
leaves the receiver unchanged on failure.  (The multi-step combinators on
a mutable builder are excluded: they can partially apply, as the
counterexample shows.) -/
theorem C6_atomic_failure (b : CronBuilder) (op : Op) (e : CronError)
    (hmode : op.multi = false ∨ (b.immutable = true ∧ b.flagsConsistent))
    (he : (Op.run b op).2 = Except.error e) :
    (Op.run b op).1 = b := by
  cases op with
  | at_minute v => exact CronBuilder.at_minute_fst_of_error b v e he
  | at_minutes vs => exact CronBuilder.at_minutes_fst_of_error b vs e he
  | every_minutes i => exact CronBuilder.every_minutes_fst_of_error b i e he
  | minute_range lo hi => exact CronBuilder.minute_range_fst_of_error b lo hi e he
  | at_hour v => exact CronBuilder.at_hour_fst_of_error b v e he
  | at_hours vs => exact CronBuilder.at_hours_fst_of_error b vs e he
  | every_hours i => exact CronBuilder.every_hours_fst_of_error b i e he
  | hour_range lo hi => exact CronBuilder.hour_range_fst_of_error b lo hi e he
  | «at» h m =>
      rcases hmode with hm | ⟨hb, hc⟩
      · simp [Op.multi] at hm
      · exact (Op.run_imm b _ hb hc).1
  | on_dom v => exact CronBuilder.on_dom_fst_of_error b v e he
  | on_doms vs => exact CronBuilder.on_doms_fst_of_error b vs e he
  | dom_range lo hi => exact CronBuilder.dom_range_fst_of_error b lo hi e he
  | in_month v => exact CronBuilder.in_month_fst_of_error b v e he
  | in_months vs => exact CronBuilder.in_months_fst_of_error b vs e he
  | month_range lo hi => exact CronBuilder.month_range_fst_of_error b lo hi e he
  | on_dow v => exact CronBuilder.on_dow_fst_of_error b v e he
  | on_dows vs => exact CronBuilder.on_dows_fst_of_error b vs e he
  | on_weekdays => exact CronBuilder.on_weekdays_fst_of_error b e he
  | on_weekends => exact CronBuilder.on_weekends_fst_of_error b e he
  | dow_range lo hi => exact CronBuilder.dow_range_fst_of_error b lo hi e he
  | hourly m => exact CronBuilder.at_minute_fst_of_error b m e he
  | daily h m =>
      rcases hmode with hm | ⟨hb, hc⟩
      · simp [Op.multi] at hm
      · exact (Op.run_imm b _ hb hc).1
  | weekly d h m =>
      rcases hmode with hm | ⟨hb, hc⟩
      · simp [Op.multi] at hm
      · exact (Op.run_imm b _ hb hc).1
  | monthly d h m =>
      rcases hmode with hm | ⟨hb, hc⟩
      · simp [Op.multi] at hm
      · exact (Op.run_imm b _ hb hc).1
  | yearly mo d h m =>
      rcases hmode with hm | ⟨hb, hc⟩
      · simp [Op.multi] at hm
      · exact (Op.run_imm b _ hb hc).1
  | and_dow d => exact CronBuilder.and_dow_fst_of_error b d e he
  | and_dom d => exact CronBuilder.and_dom_fst_of_error b d e he

/-- Claim C6 witness: a failing single-field setter on a fresh mutable
builder leaves it untouched. -/
theorem C6_witness :
    (Op.run (CronBuilder.new false) (Op.at_minute 99)).2 =
        Except.error (CronError.rangeError "minute" 99) ∧
    (Op.run (CronBuilder.new false) (Op.at_minute 99)).1 = CronBuilder.new false :=
  ⟨by decide,
   C6_atomic_failure (CronBuilder.new false) (Op.at_minute 99)
     (CronError.rangeError "minute" 99) (Or.inl (by decide)) (by decide)⟩

/-- Claim C8: on an immutable-mode builder (with the mode flag shared by
its fields, as construction guarantees), every API call leaves the
receiver's state — hence its rendering — unchanged, and any builder it
returns is again immutable-mode, so every subsequent call on it leaves it
unchanged too and can never affect the original. -/
theorem C8_immutable_isolation (b : CronBuilder) (op : Op)
    (hb : b.immutable = true) (hc : b.flagsConsistent) :
    (Op.run b op).1 = b ∧ (Op.run b op).1.render = b.render ∧
      ∀ b2, (Op.run b op).2 = Except.ok b2 → ∀ op2, (Op.run b2 op2).1 = b2 := by
  obtain ⟨h1, h2⟩ := Op.run_imm b op hb hc
  exact ⟨h1, by rw [h1],
    fun b2 hb2 op2 => (Op.run_imm b2 op2 (h2 b2 hb2).1 (h2 b2 hb2).2).1⟩

/-- Claim C8 witness: `at_hour 9` on a fresh immutable builder leaves it,
and its rendering, unchanged. -/
theorem C8_witness :
    (Op.run (CronBuilder.new true) (Op.at_hour 9)).1 = CronBuilder.new true ∧
    (Op.run (CronBuilder.new true) (Op.at_hour 9)).1.render = (CronBuilder.new true).render :=
  ⟨(C8_immutable_isolation (CronBuilder.new true) (Op.at_hour 9) (by decide) (by decide)).1,
   (C8_immutable_isolation (CronBuilder.new true) (Op.at_hour 9) (by decide) (by decide)).2.1⟩
